import Mathlib

/-!
Verification of the `ml/experiments/common/utils.py` utility layer:
retry-with-exponential-backoff wrapper, experiment title/hash naming,
subprocess stderr checking, and the kubeml function-creation helper.

Python code is shallowly embedded: byte strings are `List Nat` (each entry a
byte value), machine-independent Python integers are `Int`/`Nat`, and the
float delays of the retry wrapper are modelled as exact rationals (for the
backoff factors exercised here, powers of two, binary floating point is
exact, so the rational semantics coincides).
-/

/- ## UTF-8 encoding and decoding

`str.encode('utf-8')` and `bytes.decode()` from Python, modelled on
`List Nat` byte sequences. Encoding is total on Lean `Char` (scalar values);
decoding is strict, rejecting invalid starts, truncated sequences, overlong
forms, surrogates and out-of-range code points, as CPython's strict UTF-8
codec does. -/

/-- UTF-8 encoding of a single scalar value, as byte values. -/
def utf8EncodeChar (c : Char) : List Nat :=
  let n := c.toNat
  if n < 0x80 then [n]
  else if n < 0x800 then
    [0xC0 ||| (n >>> 6), 0x80 ||| (n &&& 0x3F)]
  else if n < 0x10000 then
    [0xE0 ||| (n >>> 12), 0x80 ||| ((n >>> 6) &&& 0x3F), 0x80 ||| (n &&& 0x3F)]
  else
    [0xF0 ||| (n >>> 18), 0x80 ||| ((n >>> 12) &&& 0x3F),
     0x80 ||| ((n >>> 6) &&& 0x3F), 0x80 ||| (n &&& 0x3F)]

/-- Python `s.encode('utf-8')`: the UTF-8 bytes of a string. -/
def utf8Encode (s : String) : List Nat :=
  s.toList.flatMap utf8EncodeChar

/-- True for UTF-8 continuation bytes `0x80..0xBF`. -/
def utf8IsCont (b : Nat) : Bool :=
  0x80 ≤ b && b < 0xC0

/-- Strict UTF-8 decoding, fuelled by the input length (the fuel only ever
needs to dominate the number of bytes consumed, and every step consumes at
least one byte). -/
def utf8DecodeAux : Nat → List Nat → Option (List Char)
  | _, [] => some []
  | 0, _ :: _ => none
  | fuel + 1, b :: rest =>
    if b < 0x80 then
      (utf8DecodeAux fuel rest).map (Char.ofNat b :: ·)
    else if b < 0xC2 then
      none
    else if b < 0xE0 then
      match rest with
      | b1 :: rest2 =>
        if utf8IsCont b1 then
          let n := ((b &&& 0x1F) <<< 6) ||| (b1 &&& 0x3F)
          (utf8DecodeAux fuel rest2).map (Char.ofNat n :: ·)
        else none
      | [] => none
    else if b < 0xF0 then
      match rest with
      | b1 :: b2 :: rest3 =>
        if utf8IsCont b1 && utf8IsCont b2 then
          let n := ((b &&& 0x0F) <<< 12) ||| ((b1 &&& 0x3F) <<< 6) ||| (b2 &&& 0x3F)
          if n < 0x800 ∨ (0xD800 ≤ n ∧ n < 0xE000) then none
          else (utf8DecodeAux fuel rest3).map (Char.ofNat n :: ·)
        else none
      | _ => none
    else if b < 0xF5 then
      match rest with
      | b1 :: b2 :: b3 :: rest4 =>
        if utf8IsCont b1 && utf8IsCont b2 && utf8IsCont b3 then
          let n := ((b &&& 0x07) <<< 18) ||| ((b1 &&& 0x3F) <<< 12) |||
                   ((b2 &&& 0x3F) <<< 6) ||| (b3 &&& 0x3F)
          if n < 0x10000 ∨ 0x110000 ≤ n then none
          else (utf8DecodeAux fuel rest4).map (Char.ofNat n :: ·)
        else none
      | _ => none
    else none

/-- Python `bs.decode()`: strict UTF-8 decoding of a byte sequence, `none`
when CPython would raise `UnicodeDecodeError`. -/
def utf8Decode (bs : List Nat) : Option String :=
  (utf8DecodeAux bs.length bs).map List.asString

/- ## SHA-256 (FIPS 180-4)

The `hashlib.sha256` primitive used by `get_hash`. Words are `Nat` reduced
modulo `2 ^ 32` by masking with `0xffffffff` wherever the source algorithm
wraps. -/

/-- Right rotation of a 32-bit word. -/
def rotr32 (n x : Nat) : Nat :=
  ((x >>> n) ||| (x <<< (32 - n))) &&& 0xffffffff

/-- Upper-case sigma-0 of the SHA-256 compression function. -/
def sigmaBig0 (x : Nat) : Nat :=
  rotr32 2 x ^^^ rotr32 13 x ^^^ rotr32 22 x

/-- Upper-case sigma-1 of the SHA-256 compression function. -/
def sigmaBig1 (x : Nat) : Nat :=
  rotr32 6 x ^^^ rotr32 11 x ^^^ rotr32 25 x

/-- Lower-case sigma-0 of the SHA-256 message schedule. -/
def sigmaSmall0 (x : Nat) : Nat :=
  rotr32 7 x ^^^ rotr32 18 x ^^^ (x >>> 3)

/-- Lower-case sigma-1 of the SHA-256 message schedule. -/
def sigmaSmall1 (x : Nat) : Nat :=
  rotr32 17 x ^^^ rotr32 19 x ^^^ (x >>> 10)

/-- The choice function of SHA-256. -/
def sha256Ch (e f g : Nat) : Nat :=
  (e &&& f) ^^^ ((e ^^^ 0xffffffff) &&& g)

/-- The majority function of SHA-256. -/
def sha256Maj (a b c : Nat) : Nat :=
  (a &&& b) ^^^ (a &&& c) ^^^ (b &&& c)

/-- The 64 SHA-256 round constants of FIPS 180-4 (the first 32 bits of the
fractional parts of the cube roots of the first 64 primes), in decimal. -/
def sha256K : List Nat :=
  [1116352408, 1899447441, 3049323471, 3921009573,
   961987163, 1508970993, 2453635748, 2870763221,
   3624381080, 310598401, 607225278, 1426881987,
   1925078388, 2162078206, 2614888103, 3248222580,
   3835390401, 4022224774, 264347078, 604807628,
   770255983, 1249150122, 1555081692, 1996064986,
   2554220882, 2821834349, 2952996808, 3210313671,
   3336571891, 3584528711, 113926993, 338241895,
   666307205, 773529912, 1294757372, 1396182291,
   1695183700, 1986661051, 2177026350, 2456956037,
   2730485921, 2820302411, 3259730800, 3345764771,
   3516065817, 3600352804, 4094571909, 275423344,
   430227734, 506948616, 659060556, 883997877,
   958139571, 1322822218, 1537002063, 1747873779,
   1955562222, 2024104815, 2227730452, 2361852424,
   2428436474, 2756734187, 3204031479, 3329325298]

/-- The SHA-256 working state, eight 32-bit words. -/
structure Sha256State where
  a : Nat
  b : Nat
  c : Nat
  d : Nat
  e : Nat
  f : Nat
  g : Nat
  h : Nat
deriving Repr, DecidableEq

/-- The SHA-256 initial hash value of FIPS 180-4 (the first 32 bits of the
fractional parts of the square roots of the first 8 primes), in decimal. -/
def sha256Init : Sha256State :=
  ⟨1779033703, 3144134277, 1013904242, 2773480762,
   1359893119, 2600822924, 528734635, 1541459225⟩

/-- The `k` bytes of `n` in big-endian order. -/
def beBytes (k n : Nat) : List Nat :=
  (List.range k).map (fun i => (n >>> (8 * (k - 1 - i))) &&& 0xff)

/-- SHA-256 padding: append `0x80`, zero bytes up to 56 mod 64, then the
bit length of the message as 8 big-endian bytes. -/
def sha256Pad (msg : List Nat) : List Nat :=
  let len := msg.length
  let zeros := (120 - (len + 1) % 64) % 64
  msg ++ [0x80] ++ List.replicate zeros 0 ++ beBytes 8 (8 * len)

/-- Splits a byte list into 64-byte chunks (fuelled by the input length). -/
def chunks64Aux : Nat → List Nat → List (List Nat)
  | 0, _ => []
  | _, [] => []
  | fuel + 1, l => l.take 64 :: chunks64Aux fuel (l.drop 64)

/-- Splits a byte list into 64-byte chunks. -/
def chunks64 (l : List Nat) : List (List Nat) :=
  chunks64Aux l.length l

/-- The 64-word message schedule of one SHA-256 block. -/
def sha256Schedule (block : List Nat) : List Nat :=
  let w0 := (List.range 16).map (fun i =>
    ((block.getD (4 * i) 0) <<< 24) ||| ((block.getD (4 * i + 1) 0) <<< 16) |||
    ((block.getD (4 * i + 2) 0) <<< 8) ||| block.getD (4 * i + 3) 0)
  (List.range 48).foldl (fun w _ =>
    let t := w.length
    w ++ [(sigmaSmall1 (w.getD (t - 2) 0) + w.getD (t - 7) 0 +
           sigmaSmall0 (w.getD (t - 15) 0) + w.getD (t - 16) 0) &&& 0xffffffff]) w0

/-- One round of the SHA-256 compression function. -/
def sha256Round (k w : Nat) (s : Sha256State) : Sha256State :=
  let t1 := (s.h + sigmaBig1 s.e + sha256Ch s.e s.f s.g + k + w) &&& 0xffffffff
  let t2 := (sigmaBig0 s.a + sha256Maj s.a s.b s.c) &&& 0xffffffff
  ⟨(t1 + t2) &&& 0xffffffff, s.a, s.b, s.c, (s.d + t1) &&& 0xffffffff, s.e, s.f, s.g⟩

/-- Compression of one 64-byte block into the running hash state. -/
def sha256Compress (st : Sha256State) (block : List Nat) : Sha256State :=
  let w := sha256Schedule block
  let r := (List.range 64).foldl
    (fun s t => sha256Round (sha256K.getD t 0) (w.getD t 0) s) st
  ⟨(st.a + r.a) &&& 0xffffffff, (st.b + r.b) &&& 0xffffffff,
   (st.c + r.c) &&& 0xffffffff, (st.d + r.d) &&& 0xffffffff,
   (st.e + r.e) &&& 0xffffffff, (st.f + r.f) &&& 0xffffffff,
   (st.g + r.g) &&& 0xffffffff, (st.h + r.h) &&& 0xffffffff⟩

/-- The 32-byte SHA-256 digest of a byte sequence. -/
def sha256Bytes (msg : List Nat) : List Nat :=
  let s := (chunks64 (sha256Pad msg)).foldl sha256Compress sha256Init
  beBytes 4 s.a ++ beBytes 4 s.b ++ beBytes 4 s.c ++ beBytes 4 s.d ++
  beBytes 4 s.e ++ beBytes 4 s.f ++ beBytes 4 s.g ++ beBytes 4 s.h

/-- The sixteen lowercase hexadecimal digits. -/
def hexDigits : List Char :=
  "0123456789abcdef".toList

/-- The lowercase hexadecimal digit of a value below 16. -/
def hexChar (n : Nat) : Char :=
  hexDigits.getD n '0'

/-- The two lowercase hexadecimal digits of one byte. -/
def byteToHex (b : Nat) : List Char :=
  [hexChar (b / 16 % 16), hexChar (b % 16)]

/-- The characters of `hashlib`'s `hexdigest()` for a SHA-256 digest. -/
def sha256HexChars (msg : List Nat) : List Char :=
  (sha256Bytes msg).flatMap byteToHex

/-- Python `sha256(bs).hexdigest()`: the digest as 64 lowercase hex digits. -/
def sha256Hexdigest (msg : List Nat) : String :=
  (sha256HexChars msg).asString

/- ## Experiment naming utilities (`get_title`, `get_hash`) -/

/-- Modelled from the spec: the Experiment Request Descriptor is defined in
`ml/experiments/common/experiment.py`, a module referenced (via
`from .experiment import *`) but not part of the sources at hand. Per the
spec it is a record with at minimum a function name, a batch size, and an
options sub-record with fields `k`, `default_parallelism` and
`goal_accuracy`. `get_title` interpolates each field through Python string
formatting, which places `str(field)` in the output; each field is therefore
modelled by its string rendering (for the spec's example descriptor,
`function_name = "resnet"`, `batch_size` rendering `"32"`, `k` rendering
`"5"`, `default_parallelism` rendering `"4"`, `goal_accuracy` rendering
`"0.9"`). -/
structure ExperimentRequest where
  function_name : String
  batch_size : String
  k : String
  default_parallelism : String
  goal_accuracy : String
deriving Repr, DecidableEq

/-- Embedding of `get_title`: the f-string
`{req.function_name}-batch{req.batch_size}-k{req.options.k}-parallel{req.options.default_parallelism}-TTA{req.options.goal_accuracy}`. -/
def get_title (req : ExperimentRequest) : String :=
  s!"{req.function_name}-batch{req.batch_size}-k{req.k}-parallel{req.default_parallelism}-TTA{req.goal_accuracy}"

/-- Embedding of `get_hash`: first 16 characters of
`sha256(title.encode('utf-8')).hexdigest()`. -/
def get_hash (title : String) : String :=
  (sha256Hexdigest (utf8Encode title)).take 16

/- ## Subprocess result checking (`check_stderr`) -/

/-- Error kinds raised by the checker: the bare `raise Exception` of
`check_stderr` (named `ExternalCommandFailed` by the spec) and the
`UnicodeDecodeError` CPython raises when `stderr.decode()` meets invalid
UTF-8. -/
inductive CmdError where
  | externalCommandFailed
  | unicodeDecodeError
deriving Repr, DecidableEq

/-- Python `repr` of a string that contains no quote, backslash or control
characters (the only case the command diagnostics exercise). -/
def pyReprStr (s : String) : String :=
  "'" ++ s ++ "'"

/-- Python `str` of a list of plain strings, as printed by `print`. -/
def pyStrList (l : List String) : String :=
  "[" ++ String.intercalate ", " (l.map pyReprStr) ++ "]"

/-- Embedding of `subprocess.CompletedProcess`: the command token list
(`args`), exit status, and captured output byte strings. -/
structure CompletedProcess where
  args : List String
  returncode : Int
  stdout : List Nat
  stderr : List Nat
deriving Repr, DecidableEq

/-- Observable outcome of a checker or helper call: the lines printed to
standard output, in order, and the error raised if any (`none` means a
normal return). -/
structure CallResult where
  output : List String
  error : Option CmdError
deriving Repr, DecidableEq

/-- The line printed by
`print("error running command", res.args, res.stderr.decode())`, given the
rendering of `res.args` and the decoded standard-error text. -/
def stderr_diag_msg (argsRepr decoded : String) : String :=
  s!"error running command {argsRepr} {decoded}"

/-- Embedding of `check_stderr`: return silently when `len(res.stderr) == 0`,
otherwise `print("error running command", res.args, res.stderr.decode())`
and `raise Exception`. -/
def check_stderr (res : CompletedProcess) : CallResult :=
  if res.stderr.length = 0 then ⟨[], none⟩
  else
    match utf8Decode res.stderr with
    | none => ⟨[], some .unicodeDecodeError⟩
    | some decoded =>
      ⟨[stderr_diag_msg (pyStrList res.args) decoded],
       some .externalCommandFailed⟩

/- ## Function registration (`create_function`) -/

/-- Behaviour of one mocked external command execution: the captured output
byte strings and exit status that `subprocess.run` reports back (its `args`
field is always the token list that was passed in). -/
structure RunBehavior where
  stdout : List Nat
  stderr : List Nat
  returncode : Int

/-- The command f-string built by `create_function`:
`kubeml fn create --name {name} --code {file}`. -/
def kubemlCommand (name file : String) : String :=
  s!"kubeml fn create --name {name} --code {file}"

/-- Splits a character list on runs of whitespace; `acc` holds the
characters of the token in progress, most recent first. -/
def pySplitAux : List Char → List Char → List (List Char)
  | [], acc => if acc = [] then [] else [acc.reverse]
  | c :: rest, acc =>
    if c.isWhitespace then
      if acc = [] then pySplitAux rest []
      else acc.reverse :: pySplitAux rest []
    else pySplitAux rest (c :: acc)

/-- Python `str.split()` with no argument: split on runs of whitespace,
producing no empty tokens (leading, trailing and repeated whitespace is
collapsed). -/
def pySplit (s : String) : List String :=
  (pySplitAux s.data []).map List.asString

/-- The announcement line `print("Creating function", name)`. -/
def creating_msg (name : String) : String :=
  s!"Creating function {name}"

/-- Embedding of `create_function`, parameterised by the (mocked) external
execution `run`: build the command string, print the announcement, execute
`command.split()`, pass the completed process to `check_stderr`, and print
the confirmation only when the checker returned normally. -/
def create_function (run : List String → RunBehavior) (name file : String) :
    CallResult :=
  let command := kubemlCommand name file
  let announce := creating_msg name
  let tokens := pySplit command
  let r := run tokens
  let res : CompletedProcess := ⟨tokens, r.returncode, r.stdout, r.stderr⟩
  let c := check_stderr res
  match c.error with
  | some e => ⟨announce :: c.output, some e⟩
  | none => ⟨announce :: (c.output ++ ["function created"]), none⟩

/- ## Retry wrapper (`retry` / `func_with_retries`) -/

/-- A Python exception value: its class (kind) and its message (`str(e)`). -/
structure Exc where
  kind : String
  message : String
deriving Repr, DecidableEq

/-- Observable trace of one call of a decorated `func_with_retries`:
the Python return (`Except.error e` for an uncaught raise, `Except.ok none`
when the function falls off the loop and implicitly returns `None`,
`Except.ok (some v)` for `return f(*args, **kwargs)`), the number of
invocations of the wrapped operation, the `time.sleep` durations in order,
and the lines printed, in order. -/
structure RetryTrace (α : Type) where
  outcome : Except Exc (Option α)
  calls : Nat
  sleeps : List ℚ
  logs : List String

/-- The value of `print_args = args if args else 'no args'`, from the
rendering of the positional-argument tuple and its emptiness. -/
def print_args_of (args_str : String) (args_empty : Bool) : String :=
  if args_empty then "no args" else args_str

/-- The attempt announcement `print(f'{total_tries + 2 - _tries}. try:')`. -/
def attempt_msg (attempt_no : Int) : String :=
  s!"{attempt_no}. try:"

/-- The terminal failure message printed when the attempt counter is
exhausted. -/
def final_fail_msg (fname : String) (total_tries : Int)
    (print_args kwargs_str : String) : String :=
  s!"Function: {fname}\nFailed despite best efforts after {total_tries} tries.\nargs: {print_args}, kwargs: {kwargs_str}"

/-- The message printed before sleeping and retrying. -/
def retrying_msg (fname emsg : String) (delay : ℚ)
    (print_args kwargs_str : String) : String :=
  s!"Function: {fname}\nException: {emsg}\nRetrying in {delay} seconds!, args: {print_args}, kwargs: {kwargs_str}\n"

/-- Embedding of the `while _tries > 1` loop of `func_with_retries`.

The loop recurses on `k = _tries - 1` (as a `Nat`, so `k = 0` exactly when
the guard `_tries > 1` fails), on the current `_delay`, and on the number of
invocations of the wrapped operation made so far. The wrapped operation `f`
maps the zero-based invocation index to its result, `exceptions e` is the
`except exceptions` membership test, and `fname`, `args_str`, `args_empty`,
`kwargs_str` render `f.__name__`, `str(args)`, the truthiness test `args`
(empty positional-argument tuple), and `str(kwargs)`. -/
def func_with_retries_loop {α : Type} (exceptions : Exc → Bool) (fname : String)
    (args_str : String) (args_empty : Bool) (kwargs_str : String)
    (total_tries : Int) (backoff_factor : ℚ) (f : Nat → Except Exc α) :
    Nat → ℚ → Nat → RetryTrace α
  | 0, _, calls => ⟨.ok none, calls, [], []⟩
  | k + 1, delay, calls =>
    let attempt_log := attempt_msg (total_tries - k)
    match f calls with
    | .ok v => ⟨.ok (some v), calls + 1, [], [attempt_log]⟩
    | .error e =>
      if exceptions e then
        let print_args := print_args_of args_str args_empty
        if k = 0 then
          let msg := final_fail_msg fname total_tries print_args kwargs_str
          ⟨.error e, calls + 1, [], [attempt_log, msg]⟩
        else
          let msg := retrying_msg fname e.message delay print_args kwargs_str
          let rest := func_with_retries_loop exceptions fname args_str
            args_empty kwargs_str total_tries backoff_factor f k
            (delay * backoff_factor) (calls + 1)
          ⟨rest.outcome, rest.calls, delay :: rest.sleeps,
           attempt_log :: msg :: rest.logs⟩
      else ⟨.error e, calls + 1, [], [attempt_log]⟩

/-- Embedding of `func_with_retries` for a decoration
`retry(exceptions, total_tries, initial_wait, backoff_factor)` (the source
defaults are `total_tries = 4`, `initial_wait = 1/2`, `backoff_factor = 2`):
`_tries, _delay = total_tries + 1, initial_wait`, then the retry loop. The
loop argument is `_tries - 1 = total_tries + 1 - 1`, clamped to `Nat` since
the loop body is never entered when `_tries ≤ 1`. -/
def func_with_retries {α : Type} (exceptions : Exc → Bool) (total_tries : Int)
    (initial_wait backoff_factor : ℚ) (f : Nat → Except Exc α) (fname : String)
    (args_str : String) (args_empty : Bool) (kwargs_str : String) :
    RetryTrace α :=
  func_with_retries_loop exceptions fname args_str args_empty kwargs_str
    total_tries backoff_factor f (total_tries + 1 - 1).toNat initial_wait 0

/- ## Helper lemmas -/

theorem beBytes_length (k n : Nat) : (beBytes k n).length = k := by
  simp [beBytes]

theorem sha256Bytes_length (msg : List Nat) : (sha256Bytes msg).length = 32 := by
  simp [sha256Bytes, beBytes_length]

theorem flatMap_byteToHex_length (l : List Nat) :
    (l.flatMap byteToHex).length = 2 * l.length := by
  induction l with
  | nil => simp
  | cons b t ih =>
    simp only [List.flatMap_cons, List.length_append, List.length_cons, ih, byteToHex]
    simp
    omega

theorem sha256HexChars_length (msg : List Nat) :
    (sha256HexChars msg).length = 64 := by
  rw [sha256HexChars, flatMap_byteToHex_length, sha256Bytes_length]

theorem hexChar_mem (m : Nat) : hexChar m ∈ hexDigits := by
  by_cases h : m < 16
  · interval_cases m <;> decide
  · rw [hexChar, List.getD_eq_default hexDigits '0'
      (by rw [show hexDigits.length = 16 from rfl]; omega)]
    decide

theorem sha256Hexdigest_data (msg : List Nat) :
    (sha256Hexdigest msg).data = sha256HexChars msg := rfl

theorem get_hash_data (s : String) :
    (get_hash s).data = (sha256HexChars (utf8Encode s)).take 16 :=
  String.data_take (sha256Hexdigest (utf8Encode s)) 16

theorem string_length_eq_data (s : String) : s.length = s.data.length := rfl

theorem get_hash_len (s : String) : (get_hash s).length = 16 := by
  rw [string_length_eq_data, get_hash_data, List.length_take, sha256HexChars_length]
  decide

theorem get_hash_mem_hex (s : String) (c : Char) (hc : c ∈ (get_hash s).data) :
    c ∈ hexDigits := by
  rw [get_hash_data] at hc
  have hc2 := List.take_subset 16 _ hc
  rw [sha256HexChars] at hc2
  obtain ⟨b, _, hb⟩ := List.mem_flatMap.mp hc2
  rw [byteToHex] at hb
  simp only [List.mem_cons, List.not_mem_nil, or_false] at hb
  rcases hb with h1 | h1 <;> rw [h1] <;> exact hexChar_mem _

/- ## Claims -/

set_option maxRecDepth 100000 in
set_option maxHeartbeats 4000000 in
/-- C5: for every string `S`, `get_hash S` equals the first 16 hexadecimal
characters of the SHA-256 digest of the UTF-8 encoding of `S`; it is a
16-character lowercase-hexadecimal string, it is deterministic, and
`get_hash "a"` differs from `get_hash "b"`. -/
theorem get_hash_spec :
    (∀ s : String, get_hash s = (sha256Hexdigest (utf8Encode s)).take 16) ∧
    (∀ s : String, (get_hash s).length = 16) ∧
    (∀ s : String, ∀ c, c ∈ (get_hash s).data → c ∈ hexDigits) ∧
    (∀ s t : String, s = t → get_hash s = get_hash t) ∧
    get_hash "a" ≠ get_hash "b" :=
  ⟨fun _ => rfl, get_hash_len, get_hash_mem_hex,
   fun _ _ h => by rw [h], by decide⟩

set_option maxRecDepth 100000 in
set_option maxHeartbeats 4000000 in
/-- Witness for C5 at concrete inputs: the first character of
`get_hash "a"` is a hexadecimal digit, and determinism applied at
`S = "resnet-batch32-k5-parallel4-TTA0.9"`. -/
theorem get_hash_spec_witness :
    'c' ∈ (get_hash "a").data ∧ 'c' ∈ hexDigits ∧
    "resnet-batch32-k5-parallel4-TTA0.9" = "resnet-batch32-k5-parallel4-TTA0.9" ∧
    get_hash "resnet-batch32-k5-parallel4-TTA0.9"
      = get_hash "resnet-batch32-k5-parallel4-TTA0.9" :=
  ⟨by decide, get_hash_spec.2.2.1 "a" 'c' (by decide), rfl,
   get_hash_spec.2.2.2.1 _ _ rfl⟩

theorem toString_string_id (s : String) : toString s = s := rfl

/-- C6: `get_title` returns exactly
`{function_name}-batch{batch_size}-k{k}-parallel{default_parallelism}-TTA{goal_accuracy}`
with the descriptor's fields interpolated verbatim; in particular the spec's
example descriptor yields `resnet-batch32-k5-parallel4-TTA0.9`. -/
theorem get_title_spec :
    (∀ req : ExperimentRequest, get_title req =
      req.function_name ++ "-batch" ++ req.batch_size ++ "-k" ++ req.k ++
      "-parallel" ++ req.default_parallelism ++ "-TTA" ++ req.goal_accuracy) ∧
    get_title ⟨"resnet", "32", "5", "4", "0.9"⟩
      = "resnet-batch32-k5-parallel4-TTA0.9" := by
  constructor
  · intro req
    simp [get_title, String.append_assoc, toString_string_id,
      String.empty_append, String.append_empty]
  · decide

set_option maxRecDepth 100000 in
set_option maxHeartbeats 4000000 in
/-- C10: `get_title` is not injective — two distinct descriptors can render
to the same title, because field values are interpolated verbatim between
`-` separators with no escaping, and they then receive the same `get_hash`
value. -/
theorem get_title_not_injective :
    ∃ d1 d2 : ExperimentRequest, d1 ≠ d2 ∧ get_title d1 = get_title d2 ∧
      get_hash (get_title d1) = get_hash (get_title d2) := by
  refine ⟨⟨"a-batch1", "2", "3", "4", "5"⟩, ⟨"a", "1-batch2", "3", "4", "5"⟩,
    ?_, ?_, ?_⟩
  · decide
  · decide
  · decide

/-- C4: `check_stderr` returns normally with no output whenever the captured
standard-error content is empty; for non-empty standard error it prints a
diagnostic built from the invoked command and the decoded standard-error
text and raises (`ExternalCommandFailed`); and the exit status is never
consulted. -/
theorem check_stderr_spec (res : CompletedProcess) :
    (res.stderr = [] → check_stderr res = ⟨[], none⟩) ∧
    (res.stderr ≠ [] → ∀ s, utf8Decode res.stderr = some s →
      check_stderr res =
        ⟨[stderr_diag_msg (pyStrList res.args) s], some .externalCommandFailed⟩) ∧
    (∀ rc : Int, check_stderr { res with returncode := rc } = check_stderr res) := by
  refine ⟨fun h => ?_, fun hne s hdec => ?_, fun rc => rfl⟩
  · simp [check_stderr, h]
  · rw [check_stderr, if_neg (by simpa using hne), hdec]

/-- Witness for C4 at concrete process outcomes: non-empty standard error
`b"bad"` with exit status 0 prints the diagnostic and raises, and empty
standard error with exit status 1 returns silently. -/
theorem check_stderr_spec_witness :
    (⟨["kubeml"], 0, [], [98, 97, 100]⟩ : CompletedProcess).stderr ≠ [] ∧
    utf8Decode [98, 97, 100] = some "bad" ∧
    check_stderr ⟨["kubeml"], 0, [], [98, 97, 100]⟩
      = ⟨[stderr_diag_msg (pyStrList ["kubeml"]) "bad"],
         some .externalCommandFailed⟩ ∧
    check_stderr ⟨["kubeml"], 1, [], []⟩ = ⟨[], none⟩ :=
  ⟨by decide, by decide,
   (check_stderr_spec ⟨["kubeml"], 0, [], [98, 97, 100]⟩).2.1
     (by decide) "bad" (by decide),
   (check_stderr_spec ⟨["kubeml"], 1, [], []⟩).1 rfl⟩

theorem creating_msg_data (name : String) :
    (creating_msg name).data = "Creating function ".data ++ name.data := by
  simp [creating_msg, toString_string_id, String.data_append,
    String.empty_append, String.append_empty]

theorem stderr_diag_msg_data (A s : String) :
    (stderr_diag_msg A s).data
      = "error running command ".data ++ (A.data ++ (" ".data ++ s.data)) := by
  simp [stderr_diag_msg, toString_string_id, String.data_append,
    String.empty_append, String.append_empty]

theorem creating_msg_ne_confirm (name : String) :
    creating_msg name ≠ "function created" := by
  intro h
  have h2 := congrArg String.data h
  rw [creating_msg_data] at h2
  have h3 := congrArg (List.take 18) h2
  rw [show (18 : Nat) = "Creating function ".data.length from by decide,
    List.take_left] at h3
  revert h3
  decide

theorem stderr_diag_msg_ne_confirm (A s : String) :
    stderr_diag_msg A s ≠ "function created" := by
  intro h
  have h2 := congrArg String.data h
  rw [stderr_diag_msg_data] at h2
  have h3 := congrArg (List.take 22) h2
  rw [show (22 : Nat) = "error running command ".data.length from by decide,
    List.take_left] at h3
  revert h3
  decide

/-- C7: `create_function` builds the command line
`kubeml fn create --name <name> --code <file>` (tokenised by whitespace
splitting); on empty standard error it returns normally having printed the
confirmation, and on non-empty standard error it raises
`ExternalCommandFailed` and never prints the confirmation. -/
theorem create_function_spec :
    (kubemlCommand "myfn" "code.zip"
       = "kubeml fn create --name myfn --code code.zip" ∧
     pySplit (kubemlCommand "myfn" "code.zip")
       = ["kubeml", "fn", "create", "--name", "myfn", "--code", "code.zip"]) ∧
    (∀ (run : List String → RunBehavior) (name file : String),
      (run (pySplit (kubemlCommand name file))).stderr = [] →
      create_function run name file
        = ⟨[creating_msg name, "function created"], none⟩) ∧
    (∀ (run : List String → RunBehavior) (name file : String) (s : String),
      (run (pySplit (kubemlCommand name file))).stderr ≠ [] →
      utf8Decode (run (pySplit (kubemlCommand name file))).stderr = some s →
      create_function run name file
        = ⟨[creating_msg name,
            stderr_diag_msg (pyStrList (pySplit (kubemlCommand name file))) s],
           some .externalCommandFailed⟩ ∧
      "function created" ∉ (create_function run name file).output) := by
  refine ⟨⟨by decide, by decide⟩, fun run name file h => ?_,
    fun run name file s hne hdec => ?_⟩
  · simp [create_function, check_stderr, h]
  · have heq : create_function run name file
        = ⟨[creating_msg name,
            stderr_diag_msg (pyStrList (pySplit (kubemlCommand name file))) s],
           some .externalCommandFailed⟩ := by
      simp only [create_function]
      rw [check_stderr, if_neg (by simpa using hne), hdec]
    refine ⟨heq, ?_⟩
    rw [heq]
    intro hmem
    rcases List.mem_cons.mp hmem with h1 | hmem2
    · exact creating_msg_ne_confirm name h1.symm
    · rcases List.mem_cons.mp hmem2 with h2 | h3
      · exact stderr_diag_msg_ne_confirm _ s h2.symm
      · exact List.not_mem_nil _ h3

/-- A mocked external execution that reports empty standard error. -/
def run_ok : List String → RunBehavior := fun _ => ⟨[111, 107], [], 0⟩

/-- A mocked external execution that reports standard error `b"bad"`. -/
def run_err : List String → RunBehavior := fun _ => ⟨[], [98, 97, 100], 1⟩

/-- Witness for C7: the success and failure scenarios at
`create_function("myfn", "code.zip")` with the two mocked executions. -/
theorem create_function_spec_witness :
    (run_ok (pySplit (kubemlCommand "myfn" "code.zip"))).stderr = [] ∧
    create_function run_ok "myfn" "code.zip"
      = ⟨[creating_msg "myfn", "function created"], none⟩ ∧
    (run_err (pySplit (kubemlCommand "myfn" "code.zip"))).stderr ≠ [] ∧
    "function created" ∉ (create_function run_err "myfn" "code.zip").output :=
  ⟨rfl, create_function_spec.2.1 run_ok "myfn" "code.zip" rfl, by decide,
   (create_function_spec.2.2 run_err "myfn" "code.zip" "bad"
     (by decide) (by decide)).2⟩

theorem func_with_retries_loop_exhaust {α : Type} (exceptions : Exc → Bool)
    (err : Nat → Exc) (hr : ∀ n, exceptions (err n) = true)
    (fname args_str kwargs_str : String) (args_empty : Bool)
    (total_tries : Int) (backoff_factor : ℚ) :
    ∀ (k : Nat) (delay : ℚ) (calls : Nat),
      (func_with_retries_loop exceptions fname args_str args_empty kwargs_str
          total_tries backoff_factor
          (fun n => (.error (err n) : Except Exc α)) (k + 1) delay calls).outcome
        = .error (err (calls + k)) ∧
      (func_with_retries_loop exceptions fname args_str args_empty kwargs_str
          total_tries backoff_factor
          (fun n => (.error (err n) : Except Exc α)) (k + 1) delay calls).calls
        = calls + k + 1 ∧
      ∃ l, (func_with_retries_loop exceptions fname args_str args_empty
          kwargs_str total_tries backoff_factor
          (fun n => (.error (err n) : Except Exc α)) (k + 1) delay calls).logs
        = l ++ [final_fail_msg fname total_tries
            (print_args_of args_str args_empty) kwargs_str] := by
  intro k
  induction k with
  | zero =>
    intro delay calls
    rw [func_with_retries_loop]
    simp only [hr, if_true]
    refine ⟨?_, ?_, ⟨[attempt_msg (total_tries - (0 : Nat))], ?_⟩⟩ <;> trivial
  | succ k ih =>
    intro delay calls
    rw [func_with_retries_loop]
    simp only [hr, if_true, Nat.succ_ne_zero, if_false]
    obtain ⟨ho, hc, l, hl⟩ := ih (delay * backoff_factor) (calls + 1)
    refine ⟨by rw [ho]; ring_nf, by rw [hc]; ring, ?_⟩
    refine ⟨attempt_msg (total_tries - (k + 1 : Nat)) ::
      retrying_msg fname (err calls).message delay
        (print_args_of args_str args_empty) kwargs_str :: l, ?_⟩
    simp [hl]

/-- C2: with `total_tries = 3`, `initial_wait = 1/10`, `backoff_factor = 2`
and a wrapped operation that fails retryably twice and succeeds on the third
invocation, the wrapper returns the success value, invokes the operation
exactly 3 times, and sleeps `1/10` then `1/5` seconds between attempts. -/
theorem retry_two_failures_then_success {α : Type} (exceptions : Exc → Bool)
    (e0 e1 : Exc) (v : α) (f : Nat → Except Exc α)
    (hf0 : f 0 = .error e0) (hf1 : f 1 = .error e1) (hf2 : f 2 = .ok v)
    (hr0 : exceptions e0 = true) (hr1 : exceptions e1 = true)
    (fname args_str kwargs_str : String) (args_empty : Bool) :
    (func_with_retries exceptions 3 (1/10) 2 f fname args_str args_empty
        kwargs_str).outcome = .ok (some v) ∧
    (func_with_retries exceptions 3 (1/10) 2 f fname args_str args_empty
        kwargs_str).calls = 3 ∧
    (func_with_retries exceptions 3 (1/10) 2 f fname args_str args_empty
        kwargs_str).sleeps = [1/10, 1/5] := by
  rw [func_with_retries, show ((3 : Int) + 1 - 1).toNat = 3 from rfl]
  rw [func_with_retries_loop, hf0]
  simp only [hr0, if_true]
  norm_num
  rw [func_with_retries_loop, hf1]
  simp only [hr1, if_true]
  norm_num
  rw [func_with_retries_loop, hf2]
  norm_num

/-- A concrete `ValueError` raised on the first invocation. -/
def value_error0 : Exc := ⟨"ValueError", "bad0"⟩

/-- A concrete `ValueError` raised on the second invocation. -/
def value_error1 : Exc := ⟨"ValueError", "bad1"⟩

/-- A concrete operation failing twice with `ValueError`, then returning
`42`. -/
def fail_twice_op : Nat → Except Exc Nat :=
  fun n => if n = 0 then .error value_error0
    else if n = 1 then .error value_error1 else .ok 42

/-- A retry configuration whose retryable set is exactly `ValueError`. -/
def retry_on_value_error : Exc → Bool := fun e => e.kind == "ValueError"

/-- A concrete `TypeError`, outside the `ValueError` retryable set. -/
def type_error : Exc := ⟨"TypeError", "oops"⟩

/-- A concrete operation that always raises `TypeError`. -/
def fail_type_error_op : Nat → Except Exc Nat := fun _ => .error type_error

/-- A concrete `ConnectionError` for the exhaustion scenarios. -/
def connection_error : Exc := ⟨"ConnectionError", "boom"⟩

/-- A concrete operation that always raises `ConnectionError`. -/
def always_fail_op : Nat → Except Exc Nat := fun _ => .error connection_error

/-- A retry configuration treating every error kind as retryable. -/
def retry_on_any : Exc → Bool := fun _ => true

/-- Witness for C2: the scenario at a concrete operation that raises
`ValueError` on its first two invocations and returns `42` on the third,
retrying on `ValueError`. -/
theorem retry_two_failures_then_success_witness :
    fail_twice_op 0 = .error value_error0 ∧
    retry_on_value_error value_error0 = true ∧
    (func_with_retries retry_on_value_error 3 (1/10) 2 fail_twice_op "train"
        "(1,)" false "\x7b\x7d").outcome = .ok (some 42) ∧
    (func_with_retries retry_on_value_error 3 (1/10) 2 fail_twice_op "train"
        "(1,)" false "\x7b\x7d").calls = 3 ∧
    (func_with_retries retry_on_value_error 3 (1/10) 2 fail_twice_op "train"
        "(1,)" false "\x7b\x7d").sleeps = [1/10, 1/5] :=
  have h := retry_two_failures_then_success retry_on_value_error value_error0
    value_error1 42 fail_twice_op rfl rfl rfl (by decide) (by decide)
    "train" "(1,)" "\x7b\x7d" false
  ⟨rfl, by decide, h.1, h.2.1, h.2.2⟩

/-- C3: an operation whose first invocation raises an error kind outside the
configured retryable set propagates immediately: exactly one invocation, no
sleep, and no retry-specific diagnostic (only the attempt announcement is
printed). -/
theorem retry_nonmatching_first_failure {α : Type} (exceptions : Exc → Bool)
    (e : Exc) (f : Nat → Except Exc α) (hf : f 0 = .error e)
    (he : exceptions e = false) (total_tries : Int) (ht : 1 ≤ total_tries)
    (initial_wait backoff_factor : ℚ)
    (fname args_str kwargs_str : String) (args_empty : Bool) :
    (func_with_retries exceptions total_tries initial_wait backoff_factor f
        fname args_str args_empty kwargs_str).outcome = .error e ∧
    (func_with_retries exceptions total_tries initial_wait backoff_factor f
        fname args_str args_empty kwargs_str).calls = 1 ∧
    (func_with_retries exceptions total_tries initial_wait backoff_factor f
        fname args_str args_empty kwargs_str).sleeps = [] ∧
    (func_with_retries exceptions total_tries initial_wait backoff_factor f
        fname args_str args_empty kwargs_str).logs = [attempt_msg 1] := by
  obtain ⟨m, hm⟩ : ∃ m, (total_tries + 1 - 1).toNat = m + 1 :=
    ⟨(total_tries + 1 - 1).toNat - 1, by omega⟩
  have hno : total_tries - (m : Int) = 1 := by omega
  rw [func_with_retries, hm, func_with_retries_loop, hf]
  simp only [he, Bool.false_eq_true, if_false, hno]
  refine ⟨?_, ?_, ?_, ?_⟩ <;> trivial

/-- Witness for C3: a `TypeError` under a wrapper retrying only on
`ValueError` propagates after one invocation with no sleep. -/
theorem retry_nonmatching_first_failure_witness :
    retry_on_value_error type_error = false ∧ (1 : Int) ≤ 4 ∧
    (func_with_retries retry_on_value_error 4 (1/2) 2 fail_type_error_op
        "train" "no" true "\x7b\x7d").calls = 1 ∧
    (func_with_retries retry_on_value_error 4 (1/2) 2 fail_type_error_op
        "train" "no" true "\x7b\x7d").sleeps = [] :=
  have h := retry_nonmatching_first_failure retry_on_value_error type_error
    fail_type_error_op rfl (by decide) 4 (by decide) (1/2) 2
    "train" "no" "\x7b\x7d" true
  ⟨by decide, by decide, h.2.1, h.2.2.1⟩

/-- C1 counterexample: with `total_tries = 2` and an operation that always
fails with a retryable error, the wrapper invokes the operation exactly 2
times — not the 3 times the claim states. -/
theorem retry_total_tries_2_counterexample :
    (func_with_retries retry_on_any 2 (1/2) 2 always_fail_op "op" "(5,)" false
      "\x7b\x7d").calls = 2 ∧
    (func_with_retries retry_on_any 2 (1/2) 2 always_fail_op "op" "(5,)" false
      "\x7b\x7d").calls ≠ 3 := by
  constructor <;> decide

/-- C1 (amended): with `total_tries = 2` and an operation that always fails
with a retryable error kind, the wrapper invokes the operation exactly 2
times (`total_tries` attempts: the counter starts at `total_tries + 1` but
the wrapper re-raises as soon as the counter reaches 1 after a failure)
before re-raising the original error unchanged. -/
theorem retry_exhaustion_total_tries_2 {α : Type} (exceptions : Exc → Bool)
    (err : Nat → Exc) (hr : ∀ n, exceptions (err n) = true)
    (initial_wait backoff_factor : ℚ)
    (fname args_str kwargs_str : String) (args_empty : Bool) :
    (func_with_retries exceptions 2 initial_wait backoff_factor
        (fun n => (.error (err n) : Except Exc α)) fname args_str args_empty
        kwargs_str).calls = 2 ∧
    (func_with_retries exceptions 2 initial_wait backoff_factor
        (fun n => (.error (err n) : Except Exc α)) fname args_str args_empty
        kwargs_str).outcome = .error (err 1) := by
  have h := func_with_retries_loop_exhaust (α := α) exceptions err hr fname
    args_str kwargs_str args_empty 2 backoff_factor 1 initial_wait 0
  rw [func_with_retries, show ((2 : Int) + 1 - 1).toNat = 2 from rfl]
  exact ⟨h.2.1, h.1⟩

/-- Witness for the amended C1 at a concrete always-failing operation. -/
theorem retry_exhaustion_total_tries_2_witness :
    retry_on_any connection_error = true ∧
    (func_with_retries retry_on_any 2 (1/2) 2
        (fun _ => (.error connection_error : Except Exc Nat)) "op" "(5,)"
        false "\x7b\x7d").calls = 2 ∧
    (func_with_retries retry_on_any 2 (1/2) 2
        (fun _ => (.error connection_error : Except Exc Nat)) "op" "(5,)"
        false "\x7b\x7d").outcome = .error connection_error :=
  have h := retry_exhaustion_total_tries_2 (α := Nat) retry_on_any
    (fun _ => connection_error) (fun _ => rfl) (1/2) 2 "op" "(5,)" "\x7b\x7d"
    false
  ⟨rfl, h.1, h.2⟩

/-- C8: when the wrapper exhausts its attempts on a retryable error, the
last line printed is the final failure message (built from the operation's
name, the rendering of the positional arguments and the keyword arguments),
and the original error is then re-raised unchanged. -/
theorem retry_exhaustion_final_message {α : Type} (exceptions : Exc → Bool)
    (err : Nat → Exc) (hr : ∀ n, exceptions (err n) = true)
    (total_tries : Int) (ht : 1 ≤ total_tries)
    (initial_wait backoff_factor : ℚ)
    (fname args_str kwargs_str : String) (args_empty : Bool) :
    (func_with_retries exceptions total_tries initial_wait backoff_factor
        (fun n => (.error (err n) : Except Exc α)) fname args_str args_empty
        kwargs_str).outcome = .error (err (total_tries.toNat - 1)) ∧
    (func_with_retries exceptions total_tries initial_wait backoff_factor
        (fun n => (.error (err n) : Except Exc α)) fname args_str args_empty
        kwargs_str).logs.getLast?
      = some (final_fail_msg fname total_tries
          (print_args_of args_str args_empty) kwargs_str) := by
  obtain ⟨m, hm⟩ : ∃ m, (total_tries + 1 - 1).toNat = m + 1 :=
    ⟨total_tries.toNat - 1, by omega⟩
  obtain ⟨ho, hc, l, hl⟩ := func_with_retries_loop_exhaust (α := α) exceptions
    err hr fname args_str kwargs_str args_empty total_tries backoff_factor m
    initial_wait 0
  rw [func_with_retries, hm]
  have hmeq : 0 + m = total_tries.toNat - 1 := by omega
  refine ⟨?_, ?_⟩
  · rw [ho, hmeq]
  · rw [hl]
    simp

/-- Witness for C8 at `total_tries = 2` with a concrete always-failing
operation. -/
theorem retry_exhaustion_final_message_witness :
    (1 : Int) ≤ 2 ∧ retry_on_any connection_error = true ∧
    (func_with_retries retry_on_any 2 (1/2) 2
        (fun _ => (.error connection_error : Except Exc Nat)) "op" "(5,)"
        false "\x7b\x7d").logs.getLast?
      = some (final_fail_msg "op" 2 (print_args_of "(5,)" false) "\x7b\x7d") :=
  have h := retry_exhaustion_final_message (α := Nat) retry_on_any
    (fun _ => connection_error) (fun _ => rfl) 2 (by decide) (1/2) 2
    "op" "(5,)" "\x7b\x7d" false
  ⟨by decide, rfl, h.2⟩

/-- C9: with `total_tries ≤ 0` the loop guard `_tries > 1` is false from the
start, so the wrapped operation is never invoked and the call returns `None`
with no sleeps and no output. -/
theorem retry_nonpositive_total_tries {α : Type} (exceptions : Exc → Bool)
    (total_tries : Int) (ht : total_tries ≤ 0)
    (initial_wait backoff_factor : ℚ) (f : Nat → Except Exc α)
    (fname args_str kwargs_str : String) (args_empty : Bool) :
    (func_with_retries exceptions total_tries initial_wait backoff_factor f
        fname args_str args_empty kwargs_str).calls = 0 ∧
    (func_with_retries exceptions total_tries initial_wait backoff_factor f
        fname args_str args_empty kwargs_str).outcome = .ok none ∧
    (func_with_retries exceptions total_tries initial_wait backoff_factor f
        fname args_str args_empty kwargs_str).sleeps = [] ∧
    (func_with_retries exceptions total_tries initial_wait backoff_factor f
        fname args_str args_empty kwargs_str).logs = [] := by
  have hk : (total_tries + 1 - 1).toNat = 0 := by omega
  rw [func_with_retries, hk]
  exact ⟨rfl, rfl, rfl, rfl⟩

/-- Witness for C9 at `total_tries = 0` with an operation that would
succeed if invoked. -/
theorem retry_nonpositive_total_tries_witness :
    (0 : Int) ≤ 0 ∧
    (func_with_retries retry_on_any 0 (1/2) 2
        (fun _ => (.ok 7 : Except Exc Nat)) "op" "" true "\x7b\x7d").calls
      = 0 ∧
    (func_with_retries retry_on_any 0 (1/2) 2
        (fun _ => (.ok 7 : Except Exc Nat)) "op" "" true
        "\x7b\x7d").outcome = .ok none :=
  have h := retry_nonpositive_total_tries (α := Nat) retry_on_any 0
    (by decide) (1/2) 2 (fun _ => .ok 7) "op" "" "\x7b\x7d" true
  ⟨by decide, h.1, h.2.1⟩
